import Mathlib

/-!
# Verification of the Basketball Stats Tracker backend

Shallow embedding of `backend/main.py`.  The backend keeps an in-memory
table of per-player box-score rows (a pandas DataFrame); the numeric
columns are floats after loading, modelled here as exact rationals `ℚ`
(the spec itself states the formulas over real arithmetic).  The three
query operations are modelled as pure functions over a `List Row`;
the HTTP 404 ("Game not found") is modelled with `Except`.
-/

namespace BasketballStats

/-- One row of the loaded DataFrame.  Column set and types follow
`_load_data` in `backend/main.py`: the sixteen stat columns are numeric
(floats after `pd.to_numeric(...).fillna(0)`, modelled as `ℚ`);
`teamId`/`personId` are `astype(int)`; the rest are strings.
`gameId` is kept in string form, since every comparison in the code goes
through `astype(str)` / `str(...)`. -/
structure Row where
  gameId : String
  teamId : Int
  teamName : String
  teamTricode : String
  personId : Int
  personName : String
  position : String
  minutes : String
  game_date : String
  fieldGoalsMade : ℚ
  fieldGoalsAttempted : ℚ
  threePointersMade : ℚ
  threePointersAttempted : ℚ
  freeThrowsMade : ℚ
  freeThrowsAttempted : ℚ
  reboundsOffensive : ℚ
  reboundsDefensive : ℚ
  reboundsTotal : ℚ
  assists : ℚ
  steals : ℚ
  blocks : ℚ
  turnovers : ℚ
  foulsPersonal : ℚ
  points : ℚ
  plusMinusPoints : ℚ
deriving DecidableEq

/-- The `PlayerStats` pydantic model of `backend/main.py`. -/
structure PlayerStats where
  gameId : String
  teamId : Int
  teamName : String
  teamTricode : String
  personId : Int
  personName : String
  position : String
  minutes : String
  points : Int
  rebounds : Int
  assists : Int
  steals : Int
  blocks : Int
  turnovers : Int
  true_shooting : ℚ
  efficiency : ℚ
  plusMinus : Int
deriving DecidableEq

/-- The `GameInfo` pydantic model of `backend/main.py`. -/
structure GameInfo where
  gameId : String
  game_date : String
  teams : List String
deriving DecidableEq

/-- The `ChartData` pydantic model.  The code stores the three numeric
lists in a dict under the fixed keys `points`, `true_shooting` and
`momentum`; they are modelled as named fields. -/
structure ChartData where
  labels : List String
  points : List ℚ
  true_shooting : List ℚ
  momentum : List ℚ
deriving DecidableEq

/-- Python `int(x)` on a float: truncation toward zero. -/
def truncQ (v : ℚ) : Int :=
  if 0 ≤ v then v.floor else -((-v).floor)

/-- Python `round(x, n)`: rounding to `n` decimal places.  (CPython uses
round-half-to-even on the binary float; the difference to `round`, which
is half-up, only shows at exact decimal ties, and every claim compares
applications of the same rounding function to itself.) -/
def roundTo (n : ℕ) (x : ℚ) : ℚ :=
  ((round (x * 10 ^ n) : ℤ) : ℚ) / 10 ^ n

/-- `_calculate_true_shooting` of `backend/main.py`:
`denom = 2 * (fga + 0.44 * fta); return points / denom if denom > 0 else 0.0`
(the local variable `denom` is inlined). -/
def calcTrueShooting (r : Row) : ℚ :=
  if 2 * (r.fieldGoalsAttempted + 0.44 * r.freeThrowsAttempted) > 0 then
    r.points / (2 * (r.fieldGoalsAttempted + 0.44 * r.freeThrowsAttempted))
  else 0

/-- `_calculate_efficiency` of `backend/main.py`. -/
def calcEfficiency (r : Row) : ℚ :=
  (r.points + r.reboundsTotal + r.assists + r.steals + r.blocks) -
    ((r.fieldGoalsAttempted - r.fieldGoalsMade) +
      (r.freeThrowsAttempted - r.freeThrowsMade) + r.turnovers)

/-- The body of the loop in `game_players`: one enriched `PlayerStats`
record built from a row. -/
def enrichRow (r : Row) : PlayerStats :=
  { gameId := r.gameId
    teamId := r.teamId
    teamName := r.teamName
    teamTricode := r.teamTricode
    personId := r.personId
    personName := r.personName
    position := r.position
    minutes := r.minutes
    points := truncQ r.points
    rebounds := truncQ r.reboundsTotal
    assists := truncQ r.assists
    steals := truncQ r.steals
    blocks := truncQ r.blocks
    turnovers := truncQ r.turnovers
    true_shooting := roundTo 3 (calcTrueShooting r)
    efficiency := roundTo 2 (calcEfficiency r)
    plusMinus := truncQ r.plusMinusPoints }

/-- `game_players` of `backend/main.py`: filter the table on
`gameId.astype(str) == str(game_id)`; 404 if empty, else the enriched
rows in table order. -/
def gamePlayers (df : List Row) (q : String) : Except String (List PlayerStats) :=
  match df.filter (fun r => r.gameId == q) with
  | [] => Except.error "Game not found"
  | r :: rs => Except.ok ((r :: rs).map enrichRow)

/-- `game_charts` of `backend/main.py`: same filter and 404; otherwise
four parallel lists built in one pass over the rows in table order
(modelled as one `map` per list). -/
def gameCharts (df : List Row) (q : String) : Except String ChartData :=
  match df.filter (fun r => r.gameId == q) with
  | [] => Except.error "Game not found"
  | r :: rs =>
      Except.ok
        { labels := (r :: rs).map (fun x => x.personName)
          points := (r :: rs).map (fun x => x.points)
          true_shooting := (r :: rs).map (fun x => roundTo 3 (calcTrueShooting x))
          momentum := (r :: rs).map (fun x => x.plusMinusPoints) }

/-- First-occurrence deduplication (the behaviour of pandas
`drop_duplicates` and of the set of `groupby` keys): keep an element iff
it has not been seen before. -/
def firstDedupAux (seen : List String) : List String → List String
  | [] => []
  | a :: rest =>
      if a ∈ seen then firstDedupAux seen rest
      else a :: firstDedupAux (a :: seen) rest

/-- First-occurrence deduplication of a list of strings. -/
def firstDedup (l : List String) : List String :=
  firstDedupAux [] l

/-- The keys of `DATAFRAME.groupby("gameId")`: the distinct `gameId`
values.  (pandas returns them sorted; the claims say nothing about the
order of the games list, so first-occurrence order is used.) -/
def gameKeys (df : List Row) : List String :=
  firstDedup (df.map (fun r => r.gameId))

/-- The `teams` field built by `list_games`:
`[f"{teams[0]} vs. {teams[1]}" if len(teams) > 1 else teams[0]]` applied
to the deduplicated team-name list.  (On an empty list the Python code
would raise IndexError; groups are never empty, so that case is
unreachable and modelled as `[]`.) -/
def teamsDisplay : List String → List String
  | [] => []
  | [a] => [a]
  | a :: b :: _ => [a ++ " vs. " ++ b]

/-- One iteration of the `list_games` loop over a `groupby` group:
date from the group's first row (`iloc[0]`), team names deduplicated
keeping first occurrences (`drop_duplicates`).  `none` on an empty
group, which `groupby` never produces. -/
def mkGameInfo? (g : String) : List Row → Option GameInfo
  | [] => none
  | r :: rs =>
      some
        { gameId := g
          game_date := r.game_date
          teams := teamsDisplay (firstDedup ((r :: rs).map (fun x => x.teamName))) }

/-- `list_games` of `backend/main.py`: one `GameInfo` per `groupby`
group. -/
def listGames (df : List Row) : List GameInfo :=
  (gameKeys df).filterMap (fun g => mkGameInfo? g (df.filter (fun r => r.gameId == g)))

/-- A raw CSV record as seen by `_load_data`.  Each numeric cell is the
result of `pd.to_numeric(..., errors="coerce")`: `some v` when the cell
coerces to the number `v`, `none` when the cell is non-numeric or
missing (pandas `NaN`). -/
structure RawRow where
  gameId : String
  teamName : String
  teamTricode : String
  personName : String
  position : String
  minutes : String
  game_date : String
  teamIdCell : Option ℚ
  personIdCell : Option ℚ
  fieldGoalsMadeCell : Option ℚ
  fieldGoalsAttemptedCell : Option ℚ
  threePointersMadeCell : Option ℚ
  threePointersAttemptedCell : Option ℚ
  freeThrowsMadeCell : Option ℚ
  freeThrowsAttemptedCell : Option ℚ
  reboundsOffensiveCell : Option ℚ
  reboundsDefensiveCell : Option ℚ
  reboundsTotalCell : Option ℚ
  assistsCell : Option ℚ
  stealsCell : Option ℚ
  blocksCell : Option ℚ
  turnoversCell : Option ℚ
  foulsPersonalCell : Option ℚ
  pointsCell : Option ℚ
  plusMinusPointsCell : Option ℚ
deriving DecidableEq

/-- `pd.to_numeric(col, errors="coerce").fillna(0)` on one cell: a cell
that fails coercion becomes `0`. -/
def coerceFill (c : Option ℚ) : ℚ :=
  c.getD 0

/-- `pd.to_numeric(col, errors="coerce").astype(int)` on one cell: there
is no `fillna` on the identifier columns, and `astype(int)` on a `NaN`
raises `ValueError: Cannot convert non-finite values (NA or inf) to
integer`. -/
def coerceIdInt (c : Option ℚ) : Except String Int :=
  match c with
  | some v => Except.ok (truncQ v)
  | none => Except.error "Cannot convert non-finite values (NA or inf) to integer"

/-- The `Row` built from a raw record once both identifier conversions
have produced integers: every stat column is coerce-and-filled. -/
def rowOfRaw (raw : RawRow) (tid pid : Int) : Row :=
  { gameId := raw.gameId
    teamId := tid
    teamName := raw.teamName
    teamTricode := raw.teamTricode
    personId := pid
    personName := raw.personName
    position := raw.position
    minutes := raw.minutes
    game_date := raw.game_date
    fieldGoalsMade := coerceFill raw.fieldGoalsMadeCell
    fieldGoalsAttempted := coerceFill raw.fieldGoalsAttemptedCell
    threePointersMade := coerceFill raw.threePointersMadeCell
    threePointersAttempted := coerceFill raw.threePointersAttemptedCell
    freeThrowsMade := coerceFill raw.freeThrowsMadeCell
    freeThrowsAttempted := coerceFill raw.freeThrowsAttemptedCell
    reboundsOffensive := coerceFill raw.reboundsOffensiveCell
    reboundsDefensive := coerceFill raw.reboundsDefensiveCell
    reboundsTotal := coerceFill raw.reboundsTotalCell
    assists := coerceFill raw.assistsCell
    steals := coerceFill raw.stealsCell
    blocks := coerceFill raw.blocksCell
    turnovers := coerceFill raw.turnoversCell
    foulsPersonal := coerceFill raw.foulsPersonalCell
    points := coerceFill raw.pointsCell
    plusMinusPoints := coerceFill raw.plusMinusPointsCell }

/-- `_load_data` restricted to one record: the sixteen stat columns go
through coerce-and-fill (total, never fails); `teamId` then `personId`
go through `astype(int)`, either of which can fail the load. -/
def loadRow (raw : RawRow) : Except String Row :=
  match coerceIdInt raw.teamIdCell, coerceIdInt raw.personIdCell with
  | Except.ok tid, Except.ok pid => Except.ok (rowOfRaw raw tid pid)
  | Except.error e, _ => Except.error e
  | _, Except.error e => Except.error e

/-- `_load_data` over the whole file: all-or-nothing (a failing
`astype(int)` raises out of the function and no DataFrame is
produced). -/
def loadData (raws : List RawRow) : Except String (List Row) :=
  raws.mapM loadRow

/-! ## Concrete sample data (used by examples and witnesses) -/

/-- The efficiency example row of the spec: points=20, totalRebounds=10,
assists=5, steals=2, blocks=1, FGM=8, FGA=18, FTM=4, FTA=5,
turnovers=3. -/
def row1 : Row :=
  { gameId := "1"
    teamId := 1
    teamName := "Celtics"
    teamTricode := "BOS"
    personId := 10
    personName := "Alpha"
    position := "G"
    minutes := "30"
    game_date := "2024-04-21"
    fieldGoalsMade := 8
    fieldGoalsAttempted := 18
    threePointersMade := 0
    threePointersAttempted := 0
    freeThrowsMade := 4
    freeThrowsAttempted := 5
    reboundsOffensive := 2
    reboundsDefensive := 8
    reboundsTotal := 10
    assists := 5
    steals := 2
    blocks := 1
    turnovers := 3
    foulsPersonal := 2
    points := 20
    plusMinusPoints := 5 }

/-- The True Shooting example row of the spec: points=30, FGA=20,
FTA=5 (second team of the same game). -/
def row2 : Row :=
  { row1 with
    teamId := 2
    teamName := "Heat"
    teamTricode := "MIA"
    personId := 11
    personName := "Beta"
    fieldGoalsAttempted := 20
    freeThrowsAttempted := 5
    points := 30
    plusMinusPoints := -5 }

/-- A two-row, one-game, two-team dataset. -/
def df6 : List Row :=
  [row1, row2]

/-- The games-list entry produced for `df6`. -/
def g1 : GameInfo :=
  { gameId := "1", game_date := "2024-04-21", teams := ["Celtics vs. Heat"] }

/-- A scoreless row with field-goal attempts: points=0, FGA=20,
FTA=0. -/
def zeroPtsRow : Row :=
  { row1 with
    personId := 12
    personName := "Gamma"
    points := 0
    fieldGoalsAttempted := 20
    freeThrowsAttempted := 0 }

/-- A row whose efficiency is negative: 0 points, 10 missed field
goals, 3 turnovers. -/
def negEffRow : Row :=
  { row1 with
    personId := 13
    personName := "Delta"
    points := 0
    reboundsTotal := 0
    assists := 0
    steals := 0
    blocks := 0
    fieldGoalsMade := 0
    fieldGoalsAttempted := 10
    freeThrowsMade := 0
    freeThrowsAttempted := 0
    turnovers := 3 }

/-- A raw record whose `teamId` cell fails numeric coercion (all stat
cells are fine). -/
def rawBad : RawRow :=
  { gameId := "1"
    teamName := "Celtics"
    teamTricode := "BOS"
    personName := "Alpha"
    position := "G"
    minutes := "30"
    game_date := "2024-04-21"
    teamIdCell := none
    personIdCell := some 10
    fieldGoalsMadeCell := some 8
    fieldGoalsAttemptedCell := some 18
    threePointersMadeCell := some 0
    threePointersAttemptedCell := some 0
    freeThrowsMadeCell := some 4
    freeThrowsAttemptedCell := some 5
    reboundsOffensiveCell := some 2
    reboundsDefensiveCell := some 8
    reboundsTotalCell := some 10
    assistsCell := some 5
    stealsCell := some 2
    blocksCell := some 1
    turnoversCell := some 3
    foulsPersonalCell := some 2
    pointsCell := some 20
    plusMinusPointsCell := some 5 }

/-! ## Helper lemmas -/

/-- Membership in first-occurrence deduplication with a seen-set. -/
lemma mem_firstDedupAux :
    ∀ (l seen : List String) (a : String),
      a ∈ firstDedupAux seen l ↔ a ∈ l ∧ a ∉ seen := by
  intro l
  induction l with
  | nil => intro seen a; simp [firstDedupAux]
  | cons b rest ih =>
      intro seen a
      by_cases hb : b ∈ seen
      · rw [firstDedupAux, if_pos hb, ih]
        simp only [List.mem_cons]
        constructor
        · rintro ⟨h1, h2⟩
          exact ⟨Or.inr h1, h2⟩
        · rintro ⟨h1 | h1, h2⟩
          · exact absurd (h1 ▸ hb) h2
          · exact ⟨h1, h2⟩
      · rw [firstDedupAux, if_neg hb]
        simp only [List.mem_cons, ih]
        constructor
        · rintro (h | ⟨h1, h2⟩)
          · exact ⟨Or.inl h, h ▸ hb⟩
          · exact ⟨Or.inr h1, fun hs => h2 (Or.inr hs)⟩
        · rintro ⟨h1 | h1, h2⟩
          · exact Or.inl h1
          · by_cases hab : a = b
            · exact Or.inl hab
            · exact Or.inr ⟨h1, by simp [List.mem_cons, hab, h2]⟩

/-- First-occurrence deduplication keeps exactly the elements of the
input. -/
lemma mem_firstDedup (l : List String) (a : String) :
    a ∈ firstDedup l ↔ a ∈ l := by
  simp [firstDedup, mem_firstDedupAux]

/-- First-occurrence deduplication produces no duplicates. -/
lemma nodup_firstDedupAux :
    ∀ (l seen : List String), (firstDedupAux seen l).Nodup := by
  intro l
  induction l with
  | nil => intro seen; simp [firstDedupAux]
  | cons b rest ih =>
      intro seen
      by_cases hb : b ∈ seen
      · rw [firstDedupAux, if_pos hb]
        exact ih seen
      · rw [firstDedupAux, if_neg hb]
        refine List.Nodup.cons ?_ (ih (b :: seen))
        intro hmem
        exact ((mem_firstDedupAux rest (b :: seen) b).mp hmem).2 (List.mem_cons_self b seen)

/-- The deduplicated list has no duplicates. -/
lemma nodup_firstDedup (l : List String) : (firstDedup l).Nodup :=
  nodup_firstDedupAux l []

/-- The game filter is empty exactly when no row of the table carries
the queried id. -/
lemma filter_game_eq_nil (df : List Row) (q : String) :
    df.filter (fun r => r.gameId == q) = [] ↔ ¬∃ r ∈ df, r.gameId = q := by
  rw [List.filter_eq_nil_iff]
  simp

/-- Every `groupby` key has a non-empty group. -/
lemma gameKeys_group_ne_nil (df : List Row) :
    ∀ g ∈ gameKeys df, df.filter (fun r => r.gameId == g) ≠ [] := by
  intro g hg hnil
  have h1 : g ∈ df.map (fun r => r.gameId) := (mem_firstDedup _ _).mp hg
  obtain ⟨r, hr, hrg⟩ := List.mem_map.mp h1
  have h2 : r ∈ df.filter (fun r => r.gameId == g) :=
    List.mem_filter.mpr ⟨hr, by simp [hrg]⟩
  rw [hnil] at h2
  exact absurd h2 (List.not_mem_nil r)

/-- Mapping a projection over a `filterMap` that hits `some` with the
key itself recovers the key list. -/
lemma map_gameId_filterMap (f : String → Option GameInfo) :
    ∀ l : List String, (∀ g ∈ l, ∃ e, f g = some e ∧ e.gameId = g) →
      (l.filterMap f).map (fun e => e.gameId) = l := by
  intro l
  induction l with
  | nil => intro _; rfl
  | cons g ks ih =>
      intro hall
      obtain ⟨e, he, heg⟩ := hall g (List.mem_cons_self g ks)
      rw [List.filterMap_cons, he]
      show List.map (fun e => e.gameId) (e :: List.filterMap f ks) = g :: ks
      rw [List.map_cons, heg, ih (fun g' hg' => hall g' (List.mem_cons_of_mem _ hg'))]

/-- Every `groupby` key yields a `some` entry carrying that key. -/
lemma mkGameInfo_of_key (df : List Row) :
    ∀ g ∈ gameKeys df,
      ∃ e, mkGameInfo? g (df.filter (fun r => r.gameId == g)) = some e ∧ e.gameId = g := by
  intro g hg
  cases hf : df.filter (fun r => r.gameId == g) with
  | nil => exact absurd hf (gameKeys_group_ne_nil df g hg)
  | cons r rs =>
      exact ⟨{ gameId := g, game_date := r.game_date, teams := teamsDisplay (firstDedup ((r :: rs).map (fun x => x.teamName))) },
             rfl, rfl⟩

/-- The games list carries exactly the `groupby` keys, in order. -/
lemma listGames_map_gameId (df : List Row) :
    (listGames df).map (fun e => e.gameId) = gameKeys df := by
  unfold listGames
  exact map_gameId_filterMap _ (gameKeys df) (mkGameInfo_of_key df)

/-! ## Claim theorems -/

/-- C1: for every player-game row (attempt counts nonnegative, as
counting stats are), True Shooting is `points / (2*(FGA + 0.44*FTA))`
whenever that denominator is nonzero and exactly `0` when it is zero;
the example row with points=30, FGA=20, FTA=5 yields `30 / 44.4`. -/
theorem trueShooting_formula_spec :
    (∀ r : Row, 0 ≤ r.fieldGoalsAttempted → 0 ≤ r.freeThrowsAttempted →
      (2 * (r.fieldGoalsAttempted + 0.44 * r.freeThrowsAttempted) ≠ 0 →
        calcTrueShooting r =
          r.points / (2 * (r.fieldGoalsAttempted + 0.44 * r.freeThrowsAttempted))) ∧
      (2 * (r.fieldGoalsAttempted + 0.44 * r.freeThrowsAttempted) = 0 →
        calcTrueShooting r = 0)) ∧
    calcTrueShooting row2 = 30 / 44.4 := by
  constructor
  · intro r hfga hfta
    have h44 : 0 ≤ (0.44 : ℚ) * r.freeThrowsAttempted := by
      apply mul_nonneg _ hfta
      norm_num
    have hnn : 0 ≤ 2 * (r.fieldGoalsAttempted + 0.44 * r.freeThrowsAttempted) := by
      linarith
    constructor
    · intro hne
      have hpos : 0 < 2 * (r.fieldGoalsAttempted + 0.44 * r.freeThrowsAttempted) :=
        lt_of_le_of_ne hnn (Ne.symm hne)
      rw [calcTrueShooting, if_pos hpos]
    · intro heq
      rw [calcTrueShooting, if_neg]
      rw [heq]
      exact lt_irrefl 0
  · norm_num [calcTrueShooting, row2, row1]

/-- Witness for C1: the example row has nonnegative attempts, a nonzero
denominator, and True Shooting equal to the quotient. -/
theorem trueShooting_formula_spec_witness :
    (0 : ℚ) ≤ row2.fieldGoalsAttempted ∧ (0 : ℚ) ≤ row2.freeThrowsAttempted ∧
    2 * (row2.fieldGoalsAttempted + 0.44 * row2.freeThrowsAttempted) ≠ 0 ∧
    calcTrueShooting row2 =
      row2.points / (2 * (row2.fieldGoalsAttempted + 0.44 * row2.freeThrowsAttempted)) :=
  ⟨by norm_num [row2, row1], by norm_num [row2, row1], by norm_num [row2, row1],
   (trueShooting_formula_spec.1 row2 (by norm_num [row2, row1])
     (by norm_num [row2, row1])).1 (by norm_num [row2, row1])⟩

/-- C2: the efficiency rating equals
`(points + totalRebounds + assists + steals + blocks) -
((FGA - FGM) + (FTA - FTM) + turnovers)` for every row, with no
clamping (a concrete row evaluates below zero), and the example row
yields 24. -/
theorem efficiency_formula_spec :
    (∀ r : Row, calcEfficiency r =
      (r.points + r.reboundsTotal + r.assists + r.steals + r.blocks) -
        ((r.fieldGoalsAttempted - r.fieldGoalsMade) +
          (r.freeThrowsAttempted - r.freeThrowsMade) + r.turnovers)) ∧
    calcEfficiency negEffRow < 0 ∧
    calcEfficiency row1 = 24 :=
  ⟨fun _ => rfl, by norm_num [calcEfficiency, negEffRow, row1],
   by norm_num [calcEfficiency, row1]⟩

/-- C3: each of the two game-scoped operations fails with the
Not-Found error exactly when no row's (string-form) gameId equals the
(string-form) queried id; an `Except.error` result carries no partial
data by construction. -/
theorem notFound_iff_absent :
    ∀ (df : List Row) (q : String),
      (gamePlayers df q = Except.error "Game not found" ↔ ¬∃ r ∈ df, r.gameId = q) ∧
      (gameCharts df q = Except.error "Game not found" ↔ ¬∃ r ∈ df, r.gameId = q) := by
  intro df q
  constructor
  · rw [← filter_game_eq_nil]
    cases h : df.filter (fun r => r.gameId == q) with
    | nil => simp [gamePlayers, h]
    | cons r rs => simp [gamePlayers, h]
  · rw [← filter_game_eq_nil]
    cases h : df.filter (fun r => r.gameId == q) with
    | nil => simp [gameCharts, h]
    | cons r rs => simp [gameCharts, h]

/-- Witness for C3: an id absent from the sample table makes both
operations return the Not-Found error. -/
theorem notFound_iff_absent_witness :
    gamePlayers df6 "zzz" = Except.error "Game not found" ∧
    gameCharts df6 "zzz" = Except.error "Game not found" :=
  ⟨((notFound_iff_absent df6 "zzz").1).mpr (by decide),
   ((notFound_iff_absent df6 "zzz").2).mpr (by decide)⟩

/-- C4: for a gameId present in the table, the players operation
succeeds with a non-empty list, every entry carries the queried id, the
list is exactly the enrichment of the matching rows in table order, and
enrichment carries True Shooting rounded to 3 decimals and efficiency
rounded to 2 decimals. -/
theorem gamePlayers_present_spec :
    ∀ (df : List Row) (q : String), (∃ r ∈ df, r.gameId = q) →
      ∃ ps, gamePlayers df q = Except.ok ps ∧ ps ≠ [] ∧
        (∀ p ∈ ps, p.gameId = q) ∧
        ps = (df.filter (fun r => r.gameId == q)).map enrichRow ∧
        (∀ r : Row, (enrichRow r).true_shooting = roundTo 3 (calcTrueShooting r) ∧
          (enrichRow r).efficiency = roundTo 2 (calcEfficiency r)) := by
  intro df q h
  have hne : df.filter (fun r => r.gameId == q) ≠ [] := by
    intro hnil
    exact ((filter_game_eq_nil df q).mp hnil) h
  cases hf : df.filter (fun r => r.gameId == q) with
  | nil => exact absurd hf hne
  | cons r rs =>
      refine ⟨(r :: rs).map enrichRow, ?_, ?_, ?_, ?_, ?_⟩
      · simp [gamePlayers, hf]
      · simp
      · intro p hp
        obtain ⟨x, hx, hxe⟩ := List.mem_map.mp hp
        have hxf : x ∈ df.filter (fun r => r.gameId == q) := hf ▸ hx
        have hxq : x.gameId = q := by
          simpa using (List.mem_filter.mp hxf).2
        rw [← hxe]
        show x.gameId = q
        exact hxq
      · rfl
      · intro r0
        exact ⟨rfl, rfl⟩

/-- Witness for C4: the sample dataset contains game "1" and the
players operation behaves as stated there. -/
theorem gamePlayers_present_spec_witness :
    (∃ r ∈ df6, r.gameId = "1") ∧
    ∃ ps, gamePlayers df6 "1" = Except.ok ps ∧ ps ≠ [] ∧
      (∀ p ∈ ps, p.gameId = "1") ∧
      ps = (df6.filter (fun r => r.gameId == "1")).map enrichRow ∧
      (∀ r : Row, (enrichRow r).true_shooting = roundTo 3 (calcTrueShooting r) ∧
        (enrichRow r).efficiency = roundTo 2 (calcEfficiency r)) :=
  ⟨by decide, gamePlayers_present_spec df6 "1" (by decide)⟩

/-- C5: for a gameId present in the table, the chart operation succeeds
and its four sequences are the row-by-row projections of the game's
rows in table order (points and plus-minus as the rows' numeric values,
True Shooting rounded to 3 decimals), so all four have length equal to
the game's row count. -/
theorem gameCharts_parallel_spec :
    ∀ (df : List Row) (q : String), (∃ r ∈ df, r.gameId = q) →
      ∃ cd, gameCharts df q = Except.ok cd ∧
        cd.labels = (df.filter (fun r => r.gameId == q)).map (fun r => r.personName) ∧
        cd.points = (df.filter (fun r => r.gameId == q)).map (fun r => r.points) ∧
        cd.true_shooting =
          (df.filter (fun r => r.gameId == q)).map (fun r => roundTo 3 (calcTrueShooting r)) ∧
        cd.momentum = (df.filter (fun r => r.gameId == q)).map (fun r => r.plusMinusPoints) ∧
        cd.labels.length = (df.filter (fun r => r.gameId == q)).length ∧
        cd.points.length = (df.filter (fun r => r.gameId == q)).length ∧
        cd.true_shooting.length = (df.filter (fun r => r.gameId == q)).length ∧
        cd.momentum.length = (df.filter (fun r => r.gameId == q)).length := by
  intro df q h
  have hne : df.filter (fun r => r.gameId == q) ≠ [] := by
    intro hnil
    exact ((filter_game_eq_nil df q).mp hnil) h
  cases hf : df.filter (fun r => r.gameId == q) with
  | nil => exact absurd hf hne
  | cons r rs =>
      refine ⟨{ labels := (r :: rs).map (fun x => x.personName)
                points := (r :: rs).map (fun x => x.points)
                true_shooting := (r :: rs).map (fun x => roundTo 3 (calcTrueShooting x))
                momentum := (r :: rs).map (fun x => x.plusMinusPoints) },
              ?_, ?_, ?_, ?_, ?_, ?_, ?_, ?_, ?_⟩
      · simp [gameCharts, hf]
      all_goals simp

/-- Witness for C5: the chart operation on the sample dataset's game
"1" satisfies the parallel-sequence property. -/
theorem gameCharts_parallel_spec_witness :
    (∃ r ∈ df6, r.gameId = "1") ∧
    ∃ cd, gameCharts df6 "1" = Except.ok cd ∧
      cd.labels = (df6.filter (fun r => r.gameId == "1")).map (fun r => r.personName) ∧
      cd.points = (df6.filter (fun r => r.gameId == "1")).map (fun r => r.points) ∧
      cd.true_shooting =
        (df6.filter (fun r => r.gameId == "1")).map (fun r => roundTo 3 (calcTrueShooting r)) ∧
      cd.momentum = (df6.filter (fun r => r.gameId == "1")).map (fun r => r.plusMinusPoints) ∧
      cd.labels.length = (df6.filter (fun r => r.gameId == "1")).length ∧
      cd.points.length = (df6.filter (fun r => r.gameId == "1")).length ∧
      cd.true_shooting.length = (df6.filter (fun r => r.gameId == "1")).length ∧
      cd.momentum.length = (df6.filter (fun r => r.gameId == "1")).length :=
  ⟨by decide, gameCharts_parallel_spec df6 "1" (by decide)⟩

/-- C10: for a gameId present in the table, the chart operation's
true_shooting sequence is entry-by-entry the true_shooting field of the
players operation's result, and its labels are those entries'
personName fields — the two endpoints agree row-for-row. -/
theorem charts_players_agree :
    ∀ (df : List Row) (q : String), (∃ r ∈ df, r.gameId = q) →
      ∃ ps cd, gamePlayers df q = Except.ok ps ∧ gameCharts df q = Except.ok cd ∧
        cd.true_shooting = ps.map (fun p => p.true_shooting) ∧
        cd.labels = ps.map (fun p => p.personName) := by
  intro df q h
  have hne : df.filter (fun r => r.gameId == q) ≠ [] := by
    intro hnil
    exact ((filter_game_eq_nil df q).mp hnil) h
  cases hf : df.filter (fun r => r.gameId == q) with
  | nil => exact absurd hf hne
  | cons r rs =>
      refine ⟨(r :: rs).map enrichRow,
              { labels := (r :: rs).map (fun x => x.personName)
                points := (r :: rs).map (fun x => x.points)
                true_shooting := (r :: rs).map (fun x => roundTo 3 (calcTrueShooting x))
                momentum := (r :: rs).map (fun x => x.plusMinusPoints) },
              ?_, ?_, ?_, ?_⟩
      · simp [gamePlayers, hf]
      · simp [gameCharts, hf]
      · rw [List.map_map]
        rfl
      · rw [List.map_map]
        rfl

/-- Witness for C10: the two endpoints agree on the sample dataset's
game "1". -/
theorem charts_players_agree_witness :
    (∃ r ∈ df6, r.gameId = "1") ∧
    ∃ ps cd, gamePlayers df6 "1" = Except.ok ps ∧ gameCharts df6 "1" = Except.ok cd ∧
      cd.true_shooting = ps.map (fun p => p.true_shooting) ∧
      cd.labels = ps.map (fun p => p.personName) :=
  ⟨by decide, charts_players_agree df6 "1" (by decide)⟩

/-- C6: for every games-list entry, with the distinct team names of the
entry's game taken in first-encountered order: exactly two distinct
names `a, b` give `teams = [a ++ " vs. " ++ b]`, and a single distinct
name `a` gives `teams = [a]`. -/
theorem listGames_teams_spec :
    ∀ (df : List Row), ∀ e ∈ listGames df,
      (∀ a b : String,
        firstDedup ((df.filter (fun r => r.gameId == e.gameId)).map (fun r => r.teamName)) =
            [a, b] →
          e.teams = [a ++ " vs. " ++ b]) ∧
      (∀ a : String,
        firstDedup ((df.filter (fun r => r.gameId == e.gameId)).map (fun r => r.teamName)) =
            [a] →
          e.teams = [a]) := by
  intro df e he
  obtain ⟨g, hg, hmk⟩ := List.mem_filterMap.mp he
  cases hf : df.filter (fun r => r.gameId == g) with
  | nil =>
      rw [hf] at hmk
      exact absurd hmk (by simp [mkGameInfo?])
  | cons r rs =>
      rw [hf] at hmk
      have he' : e = { gameId := g, game_date := r.game_date, teams := teamsDisplay (firstDedup ((r :: rs).map (fun x => x.teamName))) } := by
        have := hmk
        simp only [mkGameInfo?, Option.some.injEq] at this
        exact this.symm
      have hgid : e.gameId = g := by rw [he']
      have hteams :
          e.teams = teamsDisplay (firstDedup ((r :: rs).map (fun x => x.teamName))) := by
        rw [he']
      constructor
      · intro a b hab
        rw [hgid, hf] at hab
        rw [hteams, hab]
        rfl
      · intro a ha
        rw [hgid, hf] at ha
        rw [hteams, ha]
        rfl

/-- Witness for C6: the sample dataset's single game has the two
distinct team names Celtics and Heat in first-encountered order and its
entry's teams field is the formatted string. -/
theorem listGames_teams_spec_witness :
    g1 ∈ listGames df6 ∧
    firstDedup ((df6.filter (fun r => r.gameId == g1.gameId)).map (fun r => r.teamName)) =
      ["Celtics", "Heat"] ∧
    g1.teams = ["Celtics" ++ " vs. " ++ "Heat"] :=
  ⟨by decide, by decide,
   (listGames_teams_spec df6 g1 (by decide)).1 "Celtics" "Heat" (by decide)⟩

/-- C7: the games list has one entry per distinct gameId: its gameId
projection has no duplicates, an id appears among the entries exactly
when it appears among the rows, the number of entries equals the number
of distinct gameId values in the source, and each entry's date comes
from a row of its own group. -/
theorem listGames_distinct_spec :
    ∀ df : List Row,
      ((listGames df).map (fun e => e.gameId)).Nodup ∧
      (∀ g : String, (∃ e ∈ listGames df, e.gameId = g) ↔ ∃ r ∈ df, r.gameId = g) ∧
      (listGames df).length = (df.map (fun r => r.gameId)).toFinset.card ∧
      (∀ e ∈ listGames df, ∃ r ∈ df, r.gameId = e.gameId ∧ r.game_date = e.game_date) := by
  intro df
  refine ⟨?_, ?_, ?_, ?_⟩
  · rw [listGames_map_gameId]
    exact nodup_firstDedup _
  · intro g
    constructor
    · rintro ⟨e, he, rfl⟩
      have h1 : e.gameId ∈ (listGames df).map (fun e => e.gameId) :=
        List.mem_map_of_mem _ he
      rw [listGames_map_gameId] at h1
      have h2 := (mem_firstDedup _ _).mp h1
      obtain ⟨r, hr, hrg⟩ := List.mem_map.mp h2
      exact ⟨r, hr, hrg⟩
    · rintro ⟨r, hr, rfl⟩
      have hk : r.gameId ∈ gameKeys df :=
        (mem_firstDedup _ _).mpr (List.mem_map_of_mem _ hr)
      obtain ⟨e, he, heg⟩ := mkGameInfo_of_key df r.gameId hk
      refine ⟨e, ?_, heg⟩
      exact List.mem_filterMap.mpr ⟨r.gameId, hk, he⟩
  · have h1 : (listGames df).length = (gameKeys df).length := by
      rw [← listGames_map_gameId df, List.length_map]
    have h2 : (gameKeys df).toFinset = (df.map (fun r => r.gameId)).toFinset := by
      ext a
      simp [List.mem_toFinset, gameKeys, mem_firstDedup]
    rw [h1, ← h2]
    exact (List.toFinset_card_of_nodup (nodup_firstDedup _)).symm
  · intro e he
    obtain ⟨g, hg, hmk⟩ := List.mem_filterMap.mp he
    cases hf : df.filter (fun r => r.gameId == g) with
    | nil =>
        rw [hf] at hmk
        exact absurd hmk (by simp [mkGameInfo?])
    | cons r rs =>
        rw [hf] at hmk
        have he' : e = { gameId := g, game_date := r.game_date, teams := teamsDisplay (firstDedup ((r :: rs).map (fun x => x.teamName))) } := by
          have := hmk
          simp only [mkGameInfo?, Option.some.injEq] at this
          exact this.symm
        have hr : r ∈ df.filter (fun r => r.gameId == g) := by
          rw [hf]
          exact List.mem_cons_self r rs
        have hrdf : r ∈ df := (List.mem_filter.mp hr).1
        have hrg : r.gameId = g := by
          simpa using (List.mem_filter.mp hr).2
        refine ⟨r, hrdf, ?_, ?_⟩
        · rw [hrg, he']
        · rw [he']

/-- Witness for C7: the sample dataset's games-list entry `g1` comes
with a row of its own group supplying its id and date. -/
theorem listGames_distinct_spec_witness :
    g1 ∈ listGames df6 ∧ ∃ r ∈ df6, r.gameId = g1.gameId ∧ r.game_date = g1.game_date :=
  ⟨by decide, (listGames_distinct_spec df6).2.2.2 g1 (by decide)⟩

/-- A raw record identical to `rawBad` except that its `teamId` cell
coerces. -/
def rawGood : RawRow :=
  { rawBad with teamIdCell := some 1 }

/-- C8 (amended): for every row with nonnegative points and attempt
counts, True Shooting is nonnegative, and it equals `0` exactly when
the points are zero or both attempt counts are zero. -/
theorem trueShooting_range_spec :
    ∀ r : Row, 0 ≤ r.points → 0 ≤ r.fieldGoalsAttempted → 0 ≤ r.freeThrowsAttempted →
      0 ≤ calcTrueShooting r ∧
      (calcTrueShooting r = 0 ↔
        r.points = 0 ∨ (r.fieldGoalsAttempted = 0 ∧ r.freeThrowsAttempted = 0)) := by
  intro r hp hfga hfta
  have h44 : 0 ≤ (0.44 : ℚ) * r.freeThrowsAttempted := by
    apply mul_nonneg _ hfta
    norm_num
  by_cases hd : 2 * (r.fieldGoalsAttempted + 0.44 * r.freeThrowsAttempted) > 0
  · rw [calcTrueShooting, if_pos hd]
    refine ⟨div_nonneg hp (le_of_lt hd), ?_, ?_⟩
    · intro h0
      rcases div_eq_zero_iff.mp h0 with h | h
      · exact Or.inl h
      · exact absurd h (ne_of_gt hd)
    · rintro (h | ⟨h1, h2⟩)
      · rw [h, zero_div]
      · exfalso
        rw [h1, h2] at hd
        norm_num at hd
  · rw [calcTrueShooting, if_neg hd]
    have hd0 : 2 * (r.fieldGoalsAttempted + 0.44 * r.freeThrowsAttempted) = 0 := by
      have hle := not_lt.mp hd
      linarith
    have hfga0 : r.fieldGoalsAttempted = 0 := by linarith
    have hfta0 : r.freeThrowsAttempted = 0 := by
      have hm : (0.44 : ℚ) * r.freeThrowsAttempted = 0 := by linarith
      rcases mul_eq_zero.mp hm with h | h
      · norm_num at h
      · exact h
    refine ⟨le_refl 0, ?_, ?_⟩
    · intro _
      exact Or.inr ⟨hfga0, hfta0⟩
    · intro _
      rfl

/-- Witness for C8 (amended): the example row satisfies the hypotheses
and the conclusion. -/
theorem trueShooting_range_spec_witness :
    (0 : ℚ) ≤ row1.points ∧ (0 : ℚ) ≤ row1.fieldGoalsAttempted ∧
    (0 : ℚ) ≤ row1.freeThrowsAttempted ∧
    (0 ≤ calcTrueShooting row1 ∧
      (calcTrueShooting row1 = 0 ↔
        row1.points = 0 ∨ (row1.fieldGoalsAttempted = 0 ∧ row1.freeThrowsAttempted = 0))) :=
  ⟨by norm_num [row1], by norm_num [row1], by norm_num [row1],
   trueShooting_range_spec row1 (by norm_num [row1]) (by norm_num [row1])
     (by norm_num [row1])⟩

/-- Counterexample to C8 as stated: a scoreless row with 20 field-goal
attempts has True Shooting `0.0` although `fieldGoalsAttempted ≠ 0`, so
"equals 0.0 iff FGA = 0 and FTA = 0" fails. -/
theorem trueShooting_zero_counterexample :
    0 ≤ zeroPtsRow.points ∧ 0 ≤ zeroPtsRow.fieldGoalsAttempted ∧
    0 ≤ zeroPtsRow.freeThrowsAttempted ∧
    calcTrueShooting zeroPtsRow = 0 ∧
    ¬(zeroPtsRow.fieldGoalsAttempted = 0 ∧ zeroPtsRow.freeThrowsAttempted = 0) := by
  refine ⟨?_, ?_, ?_, ?_, ?_⟩
  · norm_num [zeroPtsRow, row1]
  · norm_num [zeroPtsRow, row1]
  · norm_num [zeroPtsRow, row1]
  · norm_num [calcTrueShooting, zeroPtsRow, row1]
  · norm_num [zeroPtsRow, row1]

/-- C9 (amended): a stat-column cell that fails numeric coercion
becomes zero and never rejects the load (whenever both identifier cells
coerce, loading succeeds and every stat field is the cell value with
`0` as the fallback); an identifier cell that fails coercion makes the
per-record load fail instead of becoming zero. -/
theorem loadRow_coercion_spec :
    ∀ raw : RawRow,
      (∀ v w : ℚ, raw.teamIdCell = some v → raw.personIdCell = some w →
        loadRow raw = Except.ok (rowOfRaw raw (truncQ v) (truncQ w))) ∧
      (∀ tid pid : Int,
        (rowOfRaw raw tid pid).fieldGoalsMade = raw.fieldGoalsMadeCell.getD 0 ∧
        (rowOfRaw raw tid pid).fieldGoalsAttempted = raw.fieldGoalsAttemptedCell.getD 0 ∧
        (rowOfRaw raw tid pid).threePointersMade = raw.threePointersMadeCell.getD 0 ∧
        (rowOfRaw raw tid pid).threePointersAttempted =
          raw.threePointersAttemptedCell.getD 0 ∧
        (rowOfRaw raw tid pid).freeThrowsMade = raw.freeThrowsMadeCell.getD 0 ∧
        (rowOfRaw raw tid pid).freeThrowsAttempted = raw.freeThrowsAttemptedCell.getD 0 ∧
        (rowOfRaw raw tid pid).reboundsOffensive = raw.reboundsOffensiveCell.getD 0 ∧
        (rowOfRaw raw tid pid).reboundsDefensive = raw.reboundsDefensiveCell.getD 0 ∧
        (rowOfRaw raw tid pid).reboundsTotal = raw.reboundsTotalCell.getD 0 ∧
        (rowOfRaw raw tid pid).assists = raw.assistsCell.getD 0 ∧
        (rowOfRaw raw tid pid).steals = raw.stealsCell.getD 0 ∧
        (rowOfRaw raw tid pid).blocks = raw.blocksCell.getD 0 ∧
        (rowOfRaw raw tid pid).turnovers = raw.turnoversCell.getD 0 ∧
        (rowOfRaw raw tid pid).foulsPersonal = raw.foulsPersonalCell.getD 0 ∧
        (rowOfRaw raw tid pid).points = raw.pointsCell.getD 0 ∧
        (rowOfRaw raw tid pid).plusMinusPoints = raw.plusMinusPointsCell.getD 0 ∧
        (rowOfRaw raw tid pid).teamId = tid ∧ (rowOfRaw raw tid pid).personId = pid) ∧
      ((raw.teamIdCell = none ∨ raw.personIdCell = none) →
        ∀ r : Row, loadRow raw ≠ Except.ok r) := by
  intro raw
  refine ⟨?_, ?_, ?_⟩
  · intro v w hv hw
    unfold loadRow
    rw [hv, hw]
    rfl
  · intro tid pid
    exact ⟨rfl, rfl, rfl, rfl, rfl, rfl, rfl, rfl, rfl, rfl, rfl, rfl, rfl, rfl, rfl,
           rfl, rfl, rfl⟩
  · rintro (h | h) r hok
    · cases hp : raw.personIdCell with
      | none => simp [loadRow, coerceIdInt, h, hp] at hok
      | some w => simp [loadRow, coerceIdInt, h, hp] at hok
    · cases ht : raw.teamIdCell with
      | none => simp [loadRow, coerceIdInt, h, ht] at hok
      | some v => simp [loadRow, coerceIdInt, h, ht] at hok

/-- Witness for C9 (amended): a record whose identifier cells coerce
loads successfully. -/
theorem loadRow_coercion_spec_witness :
    rawGood.teamIdCell = some 1 ∧ rawGood.personIdCell = some 10 ∧
    loadRow rawGood = Except.ok (rowOfRaw rawGood (truncQ 1) (truncQ 10)) :=
  ⟨rfl, rfl, (loadRow_coercion_spec rawGood).1 1 10 rfl rfl⟩

/-- Counterexample to C9 as stated: a record whose `teamId` cell fails
coercion makes the load raise (pandas `astype(int)` on NaN) instead of
producing a zero identifier; the whole-file load rejects the file. -/
theorem loadData_reject_counterexample :
    loadRow rawBad =
      Except.error "Cannot convert non-finite values (NA or inf) to integer" ∧
    loadData [rawBad] =
      Except.error "Cannot convert non-finite values (NA or inf) to integer" ∧
    rawBad.teamIdCell = none :=
  ⟨rfl, rfl, rfl⟩

end BasketballStats
